import Mathlib

/-!
Shallow embedding of the weather ETL pipeline in `dags/etl_weather_.py`
(the `enhanced_weather_etl_pipeline` DAG).  Pure transformation logic is
translated into executable Lean functions; external effects (the Postgres
hook, the HTTP hook, wall-clock reads and the process-local timezone) are
passed in explicitly as parameters, so that each task body becomes a pure
function of its declared inputs plus those explicit effect parameters.
Python `datetime` values are modelled as proleptic-Gregorian calendar
fields; an instant is identified with its count of seconds since the Unix
epoch, and a naive datetime with the epoch-second count of its fields read
as UTC (a bijective encoding of naive datetimes).
-/

namespace EtlWeather

/-! ### Calendar arithmetic (model of Python `datetime` instants) -/

/-- Gregorian leap-year test. -/
def isLeap (y : Int) : Bool :=
  (y % 4 == 0 && y % 100 != 0) || y % 400 == 0

/-- Days in a month of a given year (0 for an invalid month number). -/
def daysInMonth (y : Int) (m : Nat) : Nat :=
  match m with
  | 1 => 31 | 2 => if isLeap y then 29 else 28 | 3 => 31 | 4 => 30
  | 5 => 31 | 6 => 30 | 7 => 31 | 8 => 31 | 9 => 30 | 10 => 31
  | 11 => 30 | 12 => 31 | _ => 0

/-- Days from 1970-01-01 to the given civil date (Hinnant's algorithm).
All intermediate divisions act on non-negative operands for the dates the
pipeline handles, so the rounding convention of `Int` division is moot. -/
def daysFromCivil (y : Int) (m d : Nat) : Int :=
  let yAdj : Int := if m ≤ 2 then y - 1 else y
  let era : Int := (if 0 ≤ yAdj then yAdj else yAdj - 399) / 400
  let yoe : Int := yAdj - era * 400
  let mp : Int := ((m : Int) + 9) % 12
  let doy : Int := (153 * mp + 2) / 5 + (d : Int) - 1
  let doe : Int := yoe * 365 + yoe / 4 - yoe / 100 + doy
  era * 146097 + doe - 719468

/-- Epoch seconds of a naive datetime's fields read as UTC. -/
def naiveEpochSecs (y : Int) (mo d h mi s : Nat) : Int :=
  daysFromCivil y mo d * 86400 + (h : Int) * 3600 + (mi : Int) * 60 + (s : Int)

/-- Model of a Python `datetime.datetime` value: calendar fields plus an
optional fixed UTC offset in minutes (`none` = a naive datetime). -/
structure PyDateTime where
  year : Int
  month : Nat
  day : Nat
  hour : Nat
  minute : Nat
  second : Nat
  tzOffsetMinutes : Option Int
deriving Repr, DecidableEq

/-- Epoch seconds of the datetime's fields read as UTC (ignoring the
offset); for a naive value this is its canonical encoding. -/
def naiveSecs (dt : PyDateTime) : Int :=
  naiveEpochSecs dt.year dt.month dt.day dt.hour dt.minute dt.second

/-- The physical instant (epoch seconds) denoted by a zone-aware datetime
whose offset is `off` minutes east of UTC. -/
def utcInstant (dt : PyDateTime) (off : Int) : Int :=
  naiveSecs dt - off * 60

/-! ### Model of `str.replace('Z', '+00:00')` and `'T' in s` -/

/-- Python `s.replace('Z', '+00:00')`: every occurrence of the single
character `Z` is replaced by the six characters `+00:00`. -/
def replaceZ (s : String) : String :=
  ⟨s.data.flatMap fun c => if c = 'Z' then "+00:00".data else [c]⟩

/-- Python `c in s` for a single-character needle. -/
def pyContains (s : String) (c : Char) : Bool :=
  s.data.contains c

/-! ### Model of `datetime.fromisoformat`

The DAG only ever feeds `fromisoformat` strings of the Open-Meteo shape
`YYYY-MM-DD<sep>HH:MM:SS` with an optional `±HH:MM` offset (after the
`Z → +00:00` rewrite).  The model parses exactly this shape, validating
the field ranges as CPython does, and returns `none` where CPython raises
`ValueError`. -/

/-- Two decimal digits to a number. -/
def d2 (a b : Char) : Option Nat :=
  if a.isDigit && b.isDigit then
    some ((a.toNat - 48) * 10 + (b.toNat - 48))
  else none

/-- Four decimal digits to a number. -/
def d4 (a b c d : Char) : Option Nat :=
  if a.isDigit && b.isDigit && c.isDigit && d.isDigit then
    some (((a.toNat - 48) * 1000 + (b.toNat - 48) * 100 +
      (c.toNat - 48) * 10 + (d.toNat - 48)))
  else none

/-- Field-range validation performed by `datetime.fromisoformat`. -/
def validFields (y : Nat) (mo d h mi s : Nat) : Bool :=
  1 ≤ mo && mo ≤ 12 && 1 ≤ d && d ≤ daysInMonth (y : Int) mo &&
  h ≤ 23 && mi ≤ 59 && s ≤ 59

/-- Parse the optional trailing UTC offset `±HH:MM` (offset minutes). -/
def parseOffsetTail (cs : List Char) : Option (Option Int) :=
  match cs with
  | [] => some none
  | sg :: oh1 :: oh2 :: ':' :: om1 :: om2 :: [] =>
    match d2 oh1 oh2, d2 om1 om2 with
    | some oh, some om =>
      if (sg = '+' || sg = '-') && oh ≤ 23 && om ≤ 59 then
        some (some ((if sg = '+' then 1 else -1) * ((oh : Int) * 60 + om)))
      else none
    | _, _ => none
  | _ => none

/-- Model of `datetime.fromisoformat` on the payload shapes this DAG
produces: `none` models a raised `ValueError`. -/
def fromisoformat (s : String) : Option PyDateTime :=
  match s.data with
  | y1 :: y2 :: y3 :: y4 :: '-' :: m1 :: m2 :: '-' :: dd1 :: dd2 :: _sep ::
      h1 :: h2 :: ':' :: mi1 :: mi2 :: ':' :: s1 :: s2 :: rest =>
    match d4 y1 y2 y3 y4, d2 m1 m2, d2 dd1 dd2, d2 h1 h2, d2 mi1 mi2, d2 s1 s2 with
    | some y, some mo, some dy, some h, some mi, some sec =>
      if validFields y mo dy h mi sec then
        match parseOffsetTail rest with
        | some off => some ⟨(y : Int), mo, dy, h, mi, sec, off⟩
        | none => none
      else none
    | _, _, _, _, _, _ => none
  | _ => none

/-! ### Locations (`DEFAULT_LOCATIONS`, lines 17-53) -/

/-- A pipeline location, as stored in the per-city dict values. -/
structure Location where
  name : String
  country : String
  lat : Rat
  lon : Rat
  timezone : String
deriving Repr, DecidableEq

/-- The hard-coded fallback location dict (insertion order preserved,
modelled as an association list). -/
def DEFAULT_LOCATIONS : List (String × Location) :=
  [("london", ⟨"London", "United Kingdom", 51.5074, -0.1278, "Europe/London"⟩),
   ("new_york", ⟨"New York", "United States", 40.7128, -74.0060, "America/New_York"⟩),
   ("tokyo", ⟨"Tokyo", "Japan", 35.6762, 139.6503, "Asia/Tokyo"⟩),
   ("sydney", ⟨"Sydney", "Australia", -33.8688, 151.2093, "Australia/Sydney"⟩),
   ("paris", ⟨"Paris", "France", 48.8566, 2.3522, "Europe/Paris"⟩)]

/-! ### Raw payload model (`extract_weather_data` output shapes) -/

/-- The `current` JSON object: the fields `transform_weather_data` reads
through `.get`, each absent-tolerant.  Fields the transform never reads
(is_day, precipitation, rain, ...) are omitted from the model. -/
structure CurrentData where
  temperature_2m : Option Rat := none
  relative_humidity_2m : Option Rat := none
  apparent_temperature : Option Rat := none
  pressure_msl : Option Rat := none
  wind_speed_10m : Option Rat := none
  wind_direction_10m : Option Rat := none
  cloud_cover : Option Rat := none
  weather_code : Option Int := none
  time : Option String := none
deriving Repr, DecidableEq

/-- The `daily` JSON object: per-key `none` models a missing key. -/
structure DailyData where
  sunrise : Option (List String) := none
  sunset : Option (List String) := none
  uv_index_max : Option (List (Option Rat)) := none
deriving Repr, DecidableEq

/-- One value of the fetcher's output dict (lines 165-170); the redundant
`api_response` field is not modelled since no consumer reads it. -/
structure RawObservation where
  location : Location
  current : CurrentData
  daily : DailyData
deriving Repr, DecidableEq

/-! ### Record Normalizer (`transform_weather_data`, lines 182-278) -/

/-- The static weather-code table (lines 200-210), in source order. -/
def weather_codes : List (Int × String) :=
  [(0, "Clear sky"), (1, "Mainly clear"), (2, "Partly cloudy"), (3, "Overcast"),
   (45, "Fog"), (48, "Depositing rime fog"), (51, "Light drizzle"),
   (53, "Moderate drizzle"), (55, "Dense drizzle"), (56, "Light freezing drizzle"),
   (57, "Dense freezing drizzle"), (61, "Slight rain"), (63, "Moderate rain"),
   (65, "Heavy rain"), (66, "Light freezing rain"), (67, "Heavy freezing rain"),
   (71, "Slight snow fall"), (73, "Moderate snow fall"), (75, "Heavy snow fall"),
   (77, "Snow grains"), (80, "Slight rain showers"), (81, "Moderate rain showers"),
   (82, "Violent rain showers"), (85, "Slight snow showers"),
   (86, "Heavy snow showers"), (95, "Thunderstorm"),
   (96, "Thunderstorm with slight hail"), (99, "Thunderstorm with heavy hail")]

/-- `weather_codes.get(weather_code, f"Unknown ({weather_code})")`
(line 264). -/
def weatherDescription (c : Int) : String :=
  (weather_codes.lookup c).getD ("Unknown (" ++ toString c ++ ")")

/-- Zero-pad to two digits (as `strftime` does for `%H`, `%M`, `%S`). -/
def pad2 (n : Nat) : String :=
  if n < 10 then "0" ++ toString n else toString n

/-- `dt.time().strftime('%H:%M:%S')`: the wall-clock time-of-day of the
parsed datetime, rendered `HH:MM:SS`. -/
def strftimeHMS (dt : PyDateTime) : String :=
  pad2 dt.hour ++ ":" ++ pad2 dt.minute ++ ":" ++ pad2 dt.second

/-- Sunrise/sunset parsing (lines 215-222) for one of the two fields:
`none` input models a missing key, `some []` an empty list (both falsy in
`daily.get(...) and len(...) > 0`); a present first element is parsed
with `fromisoformat` after the `Z → +00:00` rewrite.  `Except.error`
models the `ValueError` that escapes to the per-location handler. -/
def parseSunTime : Option (List String) → Except String (Option String)
  | none => .ok none
  | some [] => .ok none
  | some (s :: _) =>
    match fromisoformat (replaceZ s) with
    | some dt => .ok (some (strftimeHMS dt))
    | none => .error s

/-- `daily.get('uv_index_max', [None])[0]` (line 261): a missing key
defaults to `[None]` whose head is `None`; a present empty list raises
`IndexError` (modelled as `Except.error`). -/
def uvIndexField (d : DailyData) : Except String (Option Rat) :=
  match d.uv_index_max with
  | none => .ok none
  | some [] => .error "IndexError"
  | some (x :: _) => .ok x

/-- The resolved timestamp pair of one record: `localTs` is the naive
local timestamp (encoded as its fields' epoch seconds read as UTC) and
`utcTs` the epoch seconds of the zone-aware UTC timestamp. -/
structure ResolvedTimes where
  localTs : Int
  utcTs : Int
deriving Repr, DecidableEq

/-- Timestamp resolution (lines 224-247).  `nowLocal`/`nowUtc` are the
run-wide `current_local`/`current_utc` captured once at transform entry;
`localOff` gives the process-local zone's UTC offset in seconds at a
given instant (used by `parsed_timestamp.astimezone()`).  A parse
failure is caught inside the source's inner `try` and falls back. -/
def resolveTimestamps (apiTimestamp : Option String) (nowLocal nowUtc : Int)
    (localOff : Int → Int) : ResolvedTimes :=
  match apiTimestamp with
  | none => ⟨nowLocal, nowUtc⟩
  | some ts =>
    if ts = "" then ⟨nowLocal, nowUtc⟩
    else if pyContains ts 'T' then
      match fromisoformat (replaceZ ts) with
      | some dt =>
        match dt.tzOffsetMinutes with
        | some off =>
          let inst := utcInstant dt off
          ⟨inst + localOff inst, inst⟩
        | none => ⟨naiveSecs dt, naiveSecs dt⟩
      | none => ⟨nowLocal, nowUtc⟩
    else ⟨nowLocal, nowUtc⟩

/-- The flat record built at lines 249-270 (the persisted unit). -/
structure WeatherRecord where
  city_name : String
  country : String
  latitude : Rat
  longitude : Rat
  temperature : Option Rat
  feels_like : Option Rat
  humidity : Option Rat
  pressure : Option Rat
  windspeed : Option Rat
  winddirection : Option Rat
  visibility : Option Rat
  uv_index : Option Rat
  cloud_cover : Option Rat
  weathercode : Int
  weather_description : String
  sunrise : Option String
  sunset : Option String
  timezone : String
  timestamp : Int
  timestamp_utc : Int
deriving Repr, DecidableEq

/-- Body of the per-city loop of `transform_weather_data` (lines
194-273); `Except.error` models an exception reaching the per-city
handler, which drops the record. -/
def transformOne (nowLocal nowUtc : Int) (localOff : Int → Int)
    (data : RawObservation) : Except String WeatherRecord := do
  let location := data.location
  let current := data.current
  let daily := data.daily
  let weather_code := current.weather_code.getD 0
  let sunrise_time ← parseSunTime daily.sunrise
  let sunset_time ← parseSunTime daily.sunset
  let times := resolveTimestamps current.time nowLocal nowUtc localOff
  let uv ← uvIndexField daily
  pure
    { city_name := location.name
      country := location.country
      latitude := location.lat
      longitude := location.lon
      temperature := current.temperature_2m
      feels_like := current.apparent_temperature
      humidity := current.relative_humidity_2m
      pressure := current.pressure_msl
      windspeed := current.wind_speed_10m
      winddirection := current.wind_direction_10m
      visibility := none
      uv_index := uv
      cloud_cover := current.cloud_cover
      weathercode := weather_code
      weather_description := weatherDescription weather_code
      sunrise := sunrise_time
      sunset := sunset_time
      timezone := location.timezone
      timestamp := times.localTs
      timestamp_utc := times.utcTs }

/-- `transform_weather_data` (lines 182-278): `nowLocal`/`nowUtc` are
captured once, then each city is transformed, failures being logged and
skipped. -/
def transform_weather_data (nowLocal nowUtc : Int) (localOff : Int → Int)
    (raw_weather_data : List (String × RawObservation)) : List WeatherRecord :=
  raw_weather_data.foldl
    (fun acc kv =>
      match transformOne nowLocal nowUtc localOff kv.2 with
      | .ok rec => acc ++ [rec]
      | .error _ => acc) []

/-! ### Location Provider (`get_active_locations`, lines 93-129) -/

/-- One row of the `cities_config` query result. -/
structure ConfigRow where
  city_name : String
  country : String
  latitude : Rat
  longitude : Rat
  timezone : String
deriving Repr, DecidableEq

/-- Outcome of the configuration read: the returned row list, or any
exception raised while reaching the store (hook creation, query). -/
inductive ConfigResult where
  | rows (rs : List ConfigRow)
  | exn
deriving Repr, DecidableEq

/-- `record[0].lower().replace(' ', '_')` (line 112), for the ASCII city
names this pipeline handles. -/
def slug (name : String) : String :=
  ⟨name.data.map fun c => if c.toLower = ' ' then '_' else c.toLower⟩

/-- The dict value built from one row (lines 113-119). -/
def rowToLocation (r : ConfigRow) : Location :=
  ⟨r.city_name, r.country, r.latitude, r.longitude, r.timezone⟩

/-- Python dict assignment `m[k] = v` on an insertion-ordered dict: an
existing key keeps its position and gets the new value; a new key is
appended. -/
def dictInsert {α : Type} (m : List (String × α)) (k : String) (v : α) :
    List (String × α) :=
  if m.any fun p => p.1 == k then
    m.map fun p => if p.1 == k then (k, v) else p
  else m ++ [(k, v)]

/-- `get_active_locations` (lines 93-129): non-empty result rows build
the dict; an empty result or any exception falls back to
`DEFAULT_LOCATIONS`.  Total in `config`, mirroring the broad
`except Exception` that keeps the task from raising. -/
def get_active_locations (config : ConfigResult) : List (String × Location) :=
  match config with
  | .exn => DEFAULT_LOCATIONS
  | .rows [] => DEFAULT_LOCATIONS
  | .rows rs =>
    rs.foldl (fun acc r => dictInsert acc (slug r.city_name) (rowToLocation r)) []

/-! ### Weather Fetcher (`extract_weather_data`, lines 131-180) -/

/-- A parsed API response body: `current`/`daily` keys may be absent
(`api_data.get('current', {})` then defaults them to empty). -/
structure ApiData where
  current : Option CurrentData := none
  daily : Option DailyData := none
deriving Repr, DecidableEq

/-- Outcome of one HTTP call: a response with a status code and parsed
body, or a raised exception (transport errors; a body that fails to
parse as JSON is also folded into `exn`, since `response.json()` raises
inside the same `try`). -/
inductive FetchResult where
  | response (status : Nat) (body : ApiData)
  | exn
deriving Repr, DecidableEq

/-- The `try` body for one location (lines 139-176): `.error` models an
exception reaching the per-location handler; `.ok none` a logged
non-200 response; `.ok (some obs)` a stored observation. -/
def tryFetchOne (fetch : String × Location → FetchResult)
    (kv : String × Location) : Except Unit (Option RawObservation) :=
  match fetch kv with
  | .exn => .error ()
  | .response status body =>
    if status == 200 then
      .ok (some ⟨kv.2, body.current.getD {}, body.daily.getD {}⟩)
    else .ok none

/-- `extract_weather_data` (lines 131-180): iterate the location dict,
catching every per-location failure, accumulating the successes. -/
def extract_weather_data (fetch : String × Location → FetchResult)
    (locations : List (String × Location)) : List (String × RawObservation) :=
  locations.foldl
    (fun acc kv =>
      match tryFetchOne fetch kv with
      | .ok (some obs) => acc ++ [(kv.1, obs)]
      | .ok none => acc
      | .error _ => acc) []

/-! ### Record Loader (`load_weather_data`, lines 280-328) -/

/-- The loader's observable outcome: the returned dict plus a trace of
its storage interaction.  `total_records = none` models the returned
dict lacking the `total_records` key; `attempted` lists the records for
which an insert was attempted, in order; `connected` records whether a
Postgres hook was created at all. -/
structure LoadOutcome where
  loaded_records : Nat
  failed_records : Nat
  total_records : Option Nat
  attempted : List WeatherRecord
  connected : Bool
deriving Repr, DecidableEq

/-- `load_weather_data` (lines 280-328), parameterized by the insert
outcome `insertOk` of each record (`false` = `pg_hook.run` raises). -/
def load_weather_data (insertOk : WeatherRecord → Bool)
    (transformed_records : List WeatherRecord) : LoadOutcome :=
  if transformed_records.isEmpty then
    { loaded_records := 0, failed_records := 0, total_records := none,
      attempted := [], connected := false }
  else
    let final := transformed_records.foldl
      (fun (acc : Nat × Nat × List WeatherRecord) r =>
        if insertOk r then (acc.1 + 1, acc.2.1, acc.2.2 ++ [r])
        else (acc.1, acc.2.1 + 1, acc.2.2 ++ [r]))
      (0, 0, [])
    { loaded_records := final.1, failed_records := final.2.1,
      total_records := some transformed_records.length,
      attempted := final.2.2, connected := true }

/-! ### Summary Reporter (`generate_weather_summary`, lines 330-379) -/

/-- The row returned by the aggregate query over
`latest_weather_by_city` (lines 338-349): every aggregate except
`COUNT(*)` is `NULL` on an empty view. -/
structure SummaryRow where
  total_cities : Nat
  avg_temperature : Option Rat
  min_temperature : Option Rat
  max_temperature : Option Rat
  avg_humidity : Option Rat
  avg_pressure : Option Rat
  earliest_data_utc : Option Int
  latest_data_utc : Option Int
deriving Repr, DecidableEq

/-- The `weather_summary` sub-object assembled at lines 365-375
(datetime fields kept as instants rather than `isoformat` strings). -/
structure WeatherSummary where
  total_cities : Nat
  avg_temperature : Option Rat
  min_temperature : Option Rat
  max_temperature : Option Rat
  avg_humidity : Option Rat
  avg_pressure : Option Rat
  earliest_data_utc : Option Int
  latest_data_utc : Option Int
  total_records_24h : Nat
deriving Repr, DecidableEq

/-- Python `round` to the nearest integer, ties to even. -/
def roundHalfEven (q : Rat) : Int :=
  if q - q.floor < 1/2 then q.floor
  else if 1/2 < q - q.floor then q.floor + 1
  else if q.floor % 2 = 0 then q.floor else q.floor + 1

/-- Python `round(x, 2)` on the exact-rational model of the aggregate. -/
def pyRound2 (q : Rat) : Rat :=
  (roundHalfEven (q * 100) : Rat) / 100

/-- The truthiness guard `expr if value else None` applied to a nullable
aggregate (lines 367-371): both `NULL` and an exact `0` take the `None`
branch. -/
def truthyGuard (x : Option Rat) (f : Rat → Rat) : Option Rat :=
  match x with
  | none => none
  | some v => if v = 0 then none else some (f v)

/-- `generate_weather_summary`, restricted to the `weather_summary`
payload (lines 361-376); the surrounding run timestamps and the echoed
`load_result` are passthroughs of this function's inputs. -/
def generate_weather_summary (row : SummaryRow) (total_records_24h : Nat) :
    WeatherSummary :=
  { total_cities := if row.total_cities ≠ 0 then row.total_cities else 0
    avg_temperature := truthyGuard row.avg_temperature pyRound2
    min_temperature := row.min_temperature
    max_temperature := row.max_temperature
    avg_humidity := truthyGuard row.avg_humidity pyRound2
    avg_pressure := truthyGuard row.avg_pressure pyRound2
    earliest_data_utc := row.earliest_data_utc
    latest_data_utc := row.latest_data_utc
    total_records_24h := total_records_24h }

/-! ### Quality Checker (`data_quality_check`, lines 381-436) -/

/-- One stored row of `weather_data`, restricted to the columns the
quality queries read. -/
structure WeatherRow where
  temperature : Option Rat
  timestamp_utc : Int
deriving Repr, DecidableEq

/-- Result row of the UTC-timestamp check query (lines 391-398). -/
structure UtcCheck where
  total_records : Nat
  future_records : Nat
  old_records : Nat
  passed : Bool
deriving Repr, DecidableEq

/-- Result row of the temperature check query (lines 408-415). -/
structure TempCheck where
  min_temperature : Option Rat
  max_temperature : Option Rat
  extreme_temperatures : Nat
  passed : Bool
deriving Repr, DecidableEq

/-- The quality summary (lines 428-433), minus the wall-clock
`timestamp` field. -/
structure QualitySummary where
  utc_timestamp_check : UtcCheck
  temperature_check : TempCheck
  overall_score : String
  all_passed : Bool
deriving Repr, DecidableEq

/-- SQL `temperature < -50 OR temperature > 60` (line 412): `NULL`
compares unknown, so a `NULL` temperature is not counted. -/
def isExtremeTemp : Option Rat → Bool
  | none => false
  | some t => t < -50 || 60 < t

/-- `data_quality_check` (lines 381-436), with the table contents `db`
and the store's `NOW()` (epoch seconds) passed explicitly.  The UTC
check filters the last 24 hours; the temperature check the last 1
hour. -/
def data_quality_check (db : List WeatherRow) (now : Int) : QualitySummary :=
  let w24 := db.filter fun r => now - 86400 ≤ r.timestamp_utc
  let future := (w24.filter fun r => now < r.timestamp_utc).length
  let old := (w24.filter fun r => r.timestamp_utc < now - 7 * 86400).length
  let utc_check : UtcCheck :=
    { total_records := w24.length, future_records := future,
      old_records := old, passed := future == 0 }
  let w1 := db.filter fun r => now - 3600 ≤ r.timestamp_utc
  let temps := w1.filterMap fun r => r.temperature
  let extreme := (w1.filter fun r => isExtremeTemp r.temperature).length
  let temp_check : TempCheck :=
    { min_temperature := temps.min?, max_temperature := temps.max?,
      extreme_temperatures := extreme, passed := extreme == 0 }
  let passed_checks :=
    (if utc_check.passed then 1 else 0) + (if temp_check.passed then 1 else 0)
  { utc_timestamp_check := utc_check
    temperature_check := temp_check
    overall_score := toString passed_checks ++ "/2"
    all_passed := passed_checks == 2 }

/-- The entry one location contributes to the fetcher's output: present
exactly for a 200 response. -/
def fetchedEntry (fetch : String × Location → FetchResult)
    (kv : String × Location) : Option (String × RawObservation) :=
  match fetch kv with
  | .response status body =>
    if status == 200 then
      some (kv.1, ⟨kv.2, body.current.getD {}, body.daily.getD {}⟩)
    else none
  | .exn => none

/-- Three configured locations for the degraded-fetch scenario. -/
def demoLocations : List (String × Location) := DEFAULT_LOCATIONS.take 3

/-- A fetch in which exactly the second location answers non-200. -/
def demoFetch : String × Location → FetchResult :=
  fun kv => if kv.1 == "new_york" then .response 500 {} else .response 200 {}

/-- A configuration row whose slug collides with itself when listed
twice. -/
def duplicateRow : ConfigRow := ⟨"Paris", "France", 48.8566, 2.3522, "Europe/Paris"⟩

/-- A concrete raw observation whose current mapping lacks the
weather_code key (and every other optional field). -/
def rawNoCode : RawObservation :=
  ⟨⟨"Testville", "Testland", 0, 0, "Etc/UTC"⟩, {}, {}⟩

/-- The record `rawNoCode` transforms to under a zero run context. -/
def recNoCode : WeatherRecord :=
  { city_name := "Testville", country := "Testland", latitude := 0, longitude := 0,
    temperature := none, feels_like := none, humidity := none, pressure := none,
    windspeed := none, winddirection := none, visibility := none, uv_index := none,
    cloud_cover := none, weathercode := 0, weather_description := "Clear sky",
    sunrise := none, sunset := none, timezone := "Etc/UTC",
    timestamp := 0, timestamp_utc := 0 }

/-- Five records distinguished by city name. -/
def namedRecord (n : String) : WeatherRecord :=
  { recNoCode with city_name := n }

/-- A batch of five records, the third of which the sample insert
predicate rejects. -/
def fiveRecords : List WeatherRecord :=
  [namedRecord "c1", namedRecord "c2", namedRecord "c3",
   namedRecord "c4", namedRecord "c5"]

/-- A concrete aggregate row whose temperature average is exactly 0. -/
def zeroAvgRow : SummaryRow :=
  { total_cities := 3, avg_temperature := some 0, min_temperature := some (-5),
    max_temperature := some 5, avg_humidity := some 50, avg_pressure := none,
    earliest_data_utc := none, latest_data_utc := none }

/-- The condition under which timestamp resolution falls back to the
run-wide now: a missing (or empty, hence falsy) timestamp value, no
date/time separator, or a failed parse. -/
def isFallbackTime : Option String → Bool
  | none => true
  | some s => s == "" || !pyContains s 'T' || (fromisoformat (replaceZ s)).isNone

/-! ### Shared helper lemmas -/

/-- A filtered list has length (beq-)zero exactly when no element
satisfies the predicate. -/
lemma filter_length_beq_zero_false {α : Type} (p : α → Bool) (l : List α) :
    (((l.filter p).length == 0) = false) ↔ ∃ a ∈ l, p a = true := by
  induction l with
  | nil => simp
  | cons x xs ih =>
    by_cases hx : p x
    · simp [List.filter_cons, hx]
    · simp only [List.filter_cons, hx, if_false, Bool.false_eq_true, ite_false]
      rw [ih]
      simp [hx]

/-- Lengths of the two halves of a boolean partition add to the whole. -/
lemma filter_length_add_not {α : Type} (p : α → Bool) (l : List α) :
    (l.filter p).length + (l.filter fun a => !p a).length = l.length := by
  induction l with
  | nil => rfl
  | cons x xs ih =>
    by_cases h : p x <;> simp [List.filter_cons, h] <;> omega

/-- A value surfaced by an association-list lookup is one of the stored
values. -/
lemma lookup_mem_values {α β : Type} [BEq α] {l : List (α × β)} {a : α} {b : β}
    (h : l.lookup a = some b) : b ∈ l.map Prod.snd := by
  induction l with
  | nil => simp [List.lookup] at h
  | cons p ps ih =>
    obtain ⟨k, v⟩ := p
    cases hak : a == k
    · simp only [List.lookup, hak] at h
      simp only [List.map_cons, List.mem_cons]
      exact Or.inr (ih h)
    · simp only [List.lookup, hak, Option.some.injEq] at h
      subst h
      simp

/-- Success characterization of the per-city transform: the record's
fields as functions of the raw observation and the run context. -/
lemma transformOne_ok_iff (nl nu : Int) (off : Int → Int) (raw : RawObservation)
    (rec : WeatherRecord) :
    transformOne nl nu off raw = .ok rec ↔
      ∃ sr ss uv,
        parseSunTime raw.daily.sunrise = .ok sr ∧
        parseSunTime raw.daily.sunset = .ok ss ∧
        uvIndexField raw.daily = .ok uv ∧
        rec = { city_name := raw.location.name, country := raw.location.country,
                latitude := raw.location.lat, longitude := raw.location.lon,
                temperature := raw.current.temperature_2m,
                feels_like := raw.current.apparent_temperature,
                humidity := raw.current.relative_humidity_2m,
                pressure := raw.current.pressure_msl,
                windspeed := raw.current.wind_speed_10m,
                winddirection := raw.current.wind_direction_10m,
                visibility := none, uv_index := uv,
                cloud_cover := raw.current.cloud_cover,
                weathercode := raw.current.weather_code.getD 0,
                weather_description := weatherDescription (raw.current.weather_code.getD 0),
                sunrise := sr, sunset := ss,
                timezone := raw.location.timezone,
                timestamp := (resolveTimestamps raw.current.time nl nu off).localTs,
                timestamp_utc := (resolveTimestamps raw.current.time nl nu off).utcTs } := by
  unfold transformOne
  cases h1 : parseSunTime raw.daily.sunrise with
  | error e => simp [h1, Bind.bind, Except.bind]
  | ok sr =>
    cases h2 : parseSunTime raw.daily.sunset with
    | error e => simp [h1, h2, Bind.bind, Except.bind]
    | ok ss =>
      cases h3 : uvIndexField raw.daily with
      | error e => simp [h1, h2, h3, Bind.bind, Except.bind]
      | ok uv =>
        simp only [h1, h2, h3, Bind.bind, Except.bind, pure, Except.pure,
          Except.ok.injEq]
        constructor
        · intro h
          exact ⟨sr, ss, uv, rfl, rfl, rfl, h.symm⟩
        · rintro ⟨sr', ss', uv', hsr, hss, huv, hrec⟩
          cases hsr
          cases hss
          cases huv
          exact hrec.symm

/-! ### Claim theorems -/

/-- C6: weather-code description lookup is total: every integer code
yields a non-empty description string; codes in the 28-entry static
table map to their fixed description, and every unmapped code renders
as `Unknown (<code>)`. -/
theorem C6_weather_code_lookup_total :
    (∀ c : Int,
      (∀ d, weather_codes.lookup c = some d → weatherDescription c = d) ∧
      (weather_codes.lookup c = none →
        weatherDescription c = "Unknown (" ++ toString c ++ ")") ∧
      (weatherDescription c).length ≠ 0) ∧
    weather_codes.length = 28 ∧
    weatherDescription 95 = "Thunderstorm" ∧
    weatherDescription 42 = "Unknown (42)" := by
  refine ⟨fun c => ⟨?_, ?_, ?_⟩, by decide, by decide, by decide⟩
  · intro d hd
    simp [weatherDescription, hd]
  · intro hd
    simp [weatherDescription, hd]
  · unfold weatherDescription
    cases hd : weather_codes.lookup c with
    | none =>
      simp only [Option.getD_none]
      rw [String.length_append, String.length_append]
      have h9 : ("Unknown (" : String).length = 9 := rfl
      have h1 : (")" : String).length = 1 := rfl
      omega
    | some d =>
      simp only [Option.getD_some]
      have hmem : d ∈ weather_codes.map Prod.snd := lookup_mem_values hd
      have hall : ∀ s ∈ weather_codes.map Prod.snd, s.length ≠ 0 := by decide
      exact hall d hmem

/-- Witness for C6: code 95 is in the table and maps to its fixed
description. -/
theorem C6_weather_code_lookup_total_witness :
    weather_codes.lookup 95 = some "Thunderstorm" ∧
    weatherDescription 95 = "Thunderstorm" :=
  ⟨by decide, (C6_weather_code_lookup_total.1 95).1 "Thunderstorm" (by decide)⟩

/-- C9: a raw current mapping with no weather_code key defaults the
code to 0, so the record carries weathercode 0 and description
"Clear sky" (never an Unknown rendering). -/
theorem C9_missing_weather_code_defaults_to_clear_sky :
    ∀ (nl nu : Int) (off : Int → Int) (raw : RawObservation) (rec : WeatherRecord),
      raw.current.weather_code = none →
      transformOne nl nu off raw = .ok rec →
      rec.weathercode = 0 ∧ rec.weather_description = "Clear sky" := by
  intro nl nu off raw rec hnone hok
  rw [transformOne_ok_iff] at hok
  obtain ⟨sr, ss, uv, _, _, _, hrec⟩ := hok
  subst hrec
  constructor
  · show raw.current.weather_code.getD 0 = 0
    rw [hnone]
    rfl
  · show weatherDescription (raw.current.weather_code.getD 0) = "Clear sky"
    rw [hnone]
    decide

/-- Witness for C9: a concrete codeless observation transforms to a
record with weathercode 0 and description "Clear sky". -/
theorem C9_missing_weather_code_defaults_to_clear_sky_witness :
    transformOne 0 0 (fun _ => 0) rawNoCode = .ok recNoCode ∧
    recNoCode.weathercode = 0 ∧ recNoCode.weather_description = "Clear sky" :=
  ⟨rfl, C9_missing_weather_code_defaults_to_clear_sky 0 0 (fun _ => 0)
    rawNoCode recNoCode rfl rfl⟩

/-- C10: the Summary Reporter guards averaged aggregates by truthiness,
so an average temperature/humidity/pressure equal to exactly 0 is
reported as null (as a NULL aggregate from an empty table would be),
while a non-zero average is rounded to 2 decimal places. -/
theorem C10_zero_average_reported_null :
    ∀ (row : SummaryRow) (t24 : Nat),
      ((row.avg_temperature = some 0 ∨ row.avg_temperature = none) →
        (generate_weather_summary row t24).avg_temperature = none) ∧
      (∀ v : Rat, v ≠ 0 → row.avg_temperature = some v →
        (generate_weather_summary row t24).avg_temperature = some (pyRound2 v)) ∧
      ((row.avg_humidity = some 0 ∨ row.avg_humidity = none) →
        (generate_weather_summary row t24).avg_humidity = none) ∧
      (∀ v : Rat, v ≠ 0 → row.avg_humidity = some v →
        (generate_weather_summary row t24).avg_humidity = some (pyRound2 v)) ∧
      ((row.avg_pressure = some 0 ∨ row.avg_pressure = none) →
        (generate_weather_summary row t24).avg_pressure = none) ∧
      (∀ v : Rat, v ≠ 0 → row.avg_pressure = some v →
        (generate_weather_summary row t24).avg_pressure = some (pyRound2 v)) := by
  intro row t24
  refine ⟨?_, ?_, ?_, ?_, ?_, ?_⟩ <;>
    first
      | (rintro (h | h) <;> simp [generate_weather_summary, truthyGuard, h])
      | (intro v hv h; simp [generate_weather_summary, truthyGuard, h, hv])

/-- Witness for C10: a zero temperature average is reported null while
a non-zero humidity average survives (rounded). -/
theorem C10_zero_average_reported_null_witness :
    zeroAvgRow.avg_temperature = some 0 ∧
    (generate_weather_summary zeroAvgRow 7).avg_temperature = none ∧
    (50 : Rat) ≠ 0 ∧
    (generate_weather_summary zeroAvgRow 7).avg_humidity = some (pyRound2 50) :=
  ⟨rfl, (C10_zero_average_reported_null zeroAvgRow 7).1 (Or.inl rfl), by decide,
    (C10_zero_average_reported_null zeroAvgRow 7).2.2.2.1 50 (by decide) rfl⟩

/-- Counterexample to C2 as stated: a stored row two hours old carries
temperature 85 (inside the last 24 hours, outside [-50, 60]), yet the
temperature check passes, because its query only scans the last 1
hour. -/
theorem C2_temperature_check_window_counterexample :
    ((0 : Int) - 86400 ≤ -7200 ∧ isExtremeTemp (some 85) = true) ∧
    (data_quality_check [⟨some 85, -7200⟩] 0).temperature_check.passed = true := by
  decide

/-- C2 (amended): the temperature check runs against the last 1 hour of
rows (not 24 hours): passed is false exactly when some row from the
last hour has temperature outside [-50, 60], such a row with
temperature 85 forces a failure, and the check reports the min/max
temperature and the extreme-row count over that window. -/
theorem C2_temperature_check_last_hour :
    ∀ (db : List WeatherRow) (now : Int),
      ((data_quality_check db now).temperature_check.passed = false ↔
        ∃ r ∈ db, now - 3600 ≤ r.timestamp_utc ∧ isExtremeTemp r.temperature = true) ∧
      (data_quality_check db now).temperature_check.extreme_temperatures =
        ((db.filter fun r => now - 3600 ≤ r.timestamp_utc).filter
          fun r => isExtremeTemp r.temperature).length ∧
      (data_quality_check db now).temperature_check.min_temperature =
        ((db.filter fun r => now - 3600 ≤ r.timestamp_utc).filterMap
          fun r => r.temperature).min? ∧
      (data_quality_check db now).temperature_check.max_temperature =
        ((db.filter fun r => now - 3600 ≤ r.timestamp_utc).filterMap
          fun r => r.temperature).max? ∧
      (∀ r ∈ db, now - 3600 ≤ r.timestamp_utc → r.temperature = some 85 →
        (data_quality_check db now).temperature_check.passed = false) := by
  intro db now
  have hiff : (data_quality_check db now).temperature_check.passed = false ↔
      ∃ r ∈ db, now - 3600 ≤ r.timestamp_utc ∧ isExtremeTemp r.temperature = true := by
    show (((db.filter fun r => now - 3600 ≤ r.timestamp_utc).filter
        fun r => isExtremeTemp r.temperature).length == 0) = false ↔ _
    rw [filter_length_beq_zero_false]
    constructor
    · rintro ⟨r, hr, hext⟩
      rw [List.mem_filter] at hr
      exact ⟨r, hr.1, by simpa using hr.2, hext⟩
    · rintro ⟨r, hr, hwin, hext⟩
      exact ⟨r, List.mem_filter.mpr ⟨hr, by simpa using hwin⟩, hext⟩
  refine ⟨hiff, rfl, rfl, rfl, ?_⟩
  intro r hr hwin htemp
  exact hiff.mpr ⟨r, hr, hwin, by rw [htemp]; decide⟩

/-- Witness for C2 (amended): a one-minute-old row with temperature 85
fails the check. -/
theorem C2_temperature_check_last_hour_witness :
    (data_quality_check [⟨some 85, -60⟩] 0).temperature_check.passed = false :=
  (C2_temperature_check_last_hour [⟨some 85, -60⟩] 0).2.2.2.2 ⟨some 85, -60⟩
    (by decide) (by decide) rfl

/-- Counterexample to C3 as stated: on the empty input the returned
dict has zero loaded/failed counts but no total_records key at all. -/
theorem C3_empty_input_counterexample :
    (load_weather_data (fun _ => true) []).total_records = none ∧
    (load_weather_data (fun _ => true) []).loaded_records = 0 ∧
    (load_weather_data (fun _ => true) []).failed_records = 0 :=
  ⟨rfl, rfl, rfl⟩

/-- C3 (amended): the loader returns all three counters for every
non-empty input; the empty input short-circuits to
`{loaded_records: 0, failed_records: 0}` with no total_records key and
without contacting storage (no connection, no insert attempt). -/
theorem C3_loader_counters_and_empty_shortcircuit :
    ∀ (insertOk : WeatherRecord → Bool) (records : List WeatherRecord),
      (records = [] →
        load_weather_data insertOk records =
          { loaded_records := 0, failed_records := 0, total_records := none,
            attempted := [], connected := false }) ∧
      (records ≠ [] →
        (load_weather_data insertOk records).total_records = some records.length ∧
        (load_weather_data insertOk records).connected = true) := by
  intro f rs
  constructor
  · intro h
    subst h
    rfl
  · intro h
    have hemp : rs.isEmpty = false := by
      cases rs with
      | nil => exact absurd rfl h
      | cons a l => rfl
    simp [load_weather_data, hemp]

/-- Witness for C3 (amended): both branches at concrete inputs. -/
theorem C3_loader_counters_witness :
    load_weather_data (fun _ => true) [] =
      { loaded_records := 0, failed_records := 0, total_records := none,
        attempted := [], connected := false } ∧
    (load_weather_data (fun _ => false) [recNoCode]).total_records = some 1 :=
  ⟨(C3_loader_counters_and_empty_shortcircuit (fun _ => true) []).1 rfl,
    ((C3_loader_counters_and_empty_shortcircuit (fun _ => false) [recNoCode]).2
      (List.cons_ne_nil _ _)).1⟩

/-- The loader's per-record loop, characterized: counts are the sizes
of the success/failure partition and every record is attempted once, in
order. -/
lemma load_foldl_spec (f : WeatherRecord → Bool) (rs : List WeatherRecord)
    (a b : Nat) (att : List WeatherRecord) :
    rs.foldl (fun (acc : Nat × Nat × List WeatherRecord) r =>
        if f r then (acc.1 + 1, acc.2.1, acc.2.2 ++ [r])
        else (acc.1, acc.2.1 + 1, acc.2.2 ++ [r])) (a, b, att) =
      (a + (rs.filter f).length,
       b + (rs.filter fun r => !f r).length,
       att ++ rs) := by
  induction rs generalizing a b att with
  | nil => simp
  | cons r rs ih =>
    rw [List.foldl_cons]
    by_cases h : f r
    · rw [if_pos h, ih]
      simp only [List.filter_cons, h, if_true, Bool.not_true,
        Bool.false_eq_true, if_false, List.length_cons, Prod.mk.injEq]
      refine ⟨?_, ?_, by simp⟩ <;> first | trivial | omega
    · have hb : f r = false := by simpa using h
      rw [if_neg h, ih]
      simp only [List.filter_cons, hb, Bool.not_false, Bool.false_eq_true,
        if_false, if_true, List.length_cons, Prod.mk.injEq]
      refine ⟨?_, ?_, by simp⟩ <;> first | trivial | omega

/-- The loader's full outcome on a non-empty input. -/
lemma load_weather_data_nonempty (f : WeatherRecord → Bool)
    (rs : List WeatherRecord) (h : rs ≠ []) :
    load_weather_data f rs =
      { loaded_records := (rs.filter f).length,
        failed_records := (rs.filter fun r => !f r).length,
        total_records := some rs.length,
        attempted := rs, connected := true } := by
  have hemp : rs.isEmpty = false := by
    cases rs with
    | nil => exact absurd rfl h
    | cons a l => rfl
  simp only [load_weather_data, hemp, Bool.false_eq_true, if_false,
    load_foldl_spec, Nat.zero_add, List.nil_append]

/-- C4: on a non-empty batch each record gets exactly one insert
attempt in order, a failing insert only increments failed_records, and
loaded + failed = total = input length; with 5 records of which one
insert raises, the counts are 4/1/5. -/
theorem C4_loader_failure_accounting :
    (∀ (insertOk : WeatherRecord → Bool) (records : List WeatherRecord),
      records ≠ [] →
        (load_weather_data insertOk records).attempted = records ∧
        (load_weather_data insertOk records).loaded_records =
          (records.filter insertOk).length ∧
        (load_weather_data insertOk records).failed_records =
          (records.filter fun r => !insertOk r).length ∧
        (load_weather_data insertOk records).loaded_records +
            (load_weather_data insertOk records).failed_records =
          records.length ∧
        (load_weather_data insertOk records).total_records =
          some records.length) ∧
    load_weather_data (fun r => r.city_name != "c3") fiveRecords =
      { loaded_records := 4, failed_records := 1, total_records := some 5,
        attempted := fiveRecords, connected := true } := by
  constructor
  · intro f rs hne
    rw [load_weather_data_nonempty f rs hne]
    exact ⟨rfl, rfl, rfl, filter_length_add_not f rs, rfl⟩
  · decide

/-- Witness for C4: the five-record batch sums its counters to its
length. -/
theorem C4_loader_failure_accounting_witness :
    (load_weather_data (fun r => r.city_name != "c3") fiveRecords).loaded_records +
        (load_weather_data (fun r => r.city_name != "c3") fiveRecords).failed_records =
      fiveRecords.length :=
  (C4_loader_failure_accounting.1 (fun r => r.city_name != "c3")
    fiveRecords (by decide)).2.2.2.1

/-- The fetcher's loop accumulates exactly the per-location entries. -/
lemma extract_foldl_spec (fetch : String × Location → FetchResult)
    (locs : List (String × Location)) (acc : List (String × RawObservation)) :
    locs.foldl
      (fun acc kv =>
        match tryFetchOne fetch kv with
        | .ok (some obs) => acc ++ [(kv.1, obs)]
        | .ok none => acc
        | .error _ => acc) acc =
      acc ++ locs.filterMap (fetchedEntry fetch) := by
  induction locs generalizing acc with
  | nil => simp
  | cons kv locs ih =>
    simp only [List.foldl_cons]
    have hstep : (match tryFetchOne fetch kv with
        | Except.ok (some obs) => acc ++ [(kv.1, obs)]
        | Except.ok none => acc
        | Except.error _ => acc) =
        acc ++ (fetchedEntry fetch kv).toList := by
      cases hf : fetch kv with
      | exn => simp [tryFetchOne, fetchedEntry, hf]
      | response st body =>
        by_cases hst : st == 200
        · simp [tryFetchOne, fetchedEntry, hf, hst]
        · have hb : (st == 200) = false := by simpa using hst
          simp [tryFetchOne, fetchedEntry, hf, hb]
    rw [hstep, ih, List.filterMap_cons]
    cases hfe : fetchedEntry fetch kv <;> simp

/-- C5: each location is fetched independently; a non-200 response or a
raised transport exception omits only that location from the returned
map, the fetcher itself never raises (every outcome lands in the ok
characterization), and with 3 locations of which one returns non-200
the result has exactly 2 entries. -/
theorem C5_fetcher_fault_tolerance :
    (∀ (fetch : String × Location → FetchResult)
        (locations : List (String × Location)),
      extract_weather_data fetch locations =
        locations.filterMap (fetchedEntry fetch)) ∧
    (∀ fetch kv st body, fetch kv = .response st body → st ≠ 200 →
      fetchedEntry fetch kv = none) ∧
    (∀ fetch kv, fetch kv = .exn → fetchedEntry fetch kv = none) ∧
    (∀ fetch kv body, fetch kv = .response 200 body →
      fetchedEntry fetch kv =
        some (kv.1, ⟨kv.2, body.current.getD {}, body.daily.getD {}⟩)) ∧
    (extract_weather_data demoFetch demoLocations).length = 2 ∧
    (extract_weather_data demoFetch demoLocations).map Prod.fst =
      ["london", "tokyo"] := by
  refine ⟨?_, ?_, ?_, ?_, by decide, by decide⟩
  · intro fetch locations
    exact extract_foldl_spec fetch locations []
  · intro fetch kv st body hf hne
    simp [fetchedEntry, hf, beq_iff_eq, hne]
  · intro fetch kv hf
    simp [fetchedEntry, hf]
  · intro fetch kv body hf
    simp [fetchedEntry, hf]

/-- Witness for C5: the non-200 location contributes no entry. -/
theorem C5_fetcher_fault_tolerance_witness :
    demoFetch ("new_york",
      ⟨"New York", "United States", 40.7128, -74.0060, "America/New_York"⟩) =
      .response 500 {} ∧
    fetchedEntry demoFetch ("new_york",
      ⟨"New York", "United States", 40.7128, -74.0060, "America/New_York"⟩) =
      none :=
  ⟨rfl, C5_fetcher_fault_tolerance.2.1 demoFetch
    ("new_york", ⟨"New York", "United States", 40.7128, -74.0060, "America/New_York"⟩)
    500 {} rfl (by decide)⟩

/-- Inserting under a key absent from the dict appends. -/
lemma dictInsert_not_mem {α : Type} (m : List (String × α)) (k : String) (v : α)
    (h : ∀ p ∈ m, p.1 ≠ k) : dictInsert m k v = m ++ [(k, v)] := by
  have hcond : ¬(m.any fun p => p.1 == k) = true := by
    rw [List.any_eq_true]
    rintro ⟨p, hp, he⟩
    exact h p hp (by simpa using he)
  unfold dictInsert
  rw [if_neg hcond]

/-- Building the location dict from rows with pairwise-distinct slugs
appends one entry per row. -/
lemma foldl_dictInsert_nodup (rs : List ConfigRow) (acc : List (String × Location))
    (hdisj : ∀ r ∈ rs, ∀ p ∈ acc, p.1 ≠ slug r.city_name)
    (hnodup : (rs.map fun r => slug r.city_name).Nodup) :
    rs.foldl (fun a r => dictInsert a (slug r.city_name) (rowToLocation r)) acc =
      acc ++ rs.map fun r => (slug r.city_name, rowToLocation r) := by
  revert hdisj hnodup
  induction rs generalizing acc with
  | nil =>
    intro _ _
    simp
  | cons r rs ih =>
    intro hdisj hnodup
    have hhead : ∀ p ∈ acc, p.1 ≠ slug r.city_name :=
      fun p hp => hdisj r (List.mem_cons_self r rs) p hp
    rw [List.foldl_cons, dictInsert_not_mem acc _ _ hhead]
    have hnm : slug r.city_name ∉ rs.map fun r => slug r.city_name :=
      (List.nodup_cons.mp (by simpa using hnodup)).1
    have hdisj' : ∀ r' ∈ rs, ∀ p ∈ acc ++ [(slug r.city_name, rowToLocation r)],
        p.1 ≠ slug r'.city_name := by
      intro r' hr' p hp
      rcases List.mem_append.mp hp with hp | hp
      · exact hdisj r' (List.mem_cons_of_mem _ hr') p hp
      · have hpe : p = (slug r.city_name, rowToLocation r) := by simpa using hp
        subst hpe
        intro heq
        have heq' : slug r.city_name = slug r'.city_name := heq
        apply hnm
        rw [heq']
        exact List.mem_map_of_mem _ hr'
    have hnodup' : (rs.map fun r => slug r.city_name).Nodup :=
      (List.nodup_cons.mp (by simpa using hnodup)).2
    rw [ih _ hdisj' hnodup']
    simp

/-- Counterexample to C8 as stated: two active rows with the same city
name produce a single dict entry, not one entry per row. -/
theorem C8_one_entry_per_row_counterexample :
    (get_active_locations (.rows [duplicateRow, duplicateRow])).length = 1 ∧
    [duplicateRow, duplicateRow].length = 2 := by
  decide

/-- C8 (amended): the provider returns a slug-keyed map for every
configuration outcome and never raises; any retrieval error or zero
active rows yields the fixed built-in set of five cities; non-empty
rows whose slugs are pairwise distinct yield exactly one entry per row,
keyed by the lowercased space-to-underscore slug (rows sharing a slug
collapse into one entry). -/
theorem C8_location_provider_fallback :
    get_active_locations .exn = DEFAULT_LOCATIONS ∧
    get_active_locations (.rows []) = DEFAULT_LOCATIONS ∧
    DEFAULT_LOCATIONS.length = 5 ∧
    (∀ rs : List ConfigRow, rs ≠ [] →
      ((rs.map fun r => slug r.city_name).Nodup) →
      get_active_locations (.rows rs) =
        rs.map fun r => (slug r.city_name, rowToLocation r)) := by
  refine ⟨rfl, rfl, rfl, ?_⟩
  intro rs hne hnodup
  cases rs with
  | nil => exact absurd rfl hne
  | cons r rs =>
    show (r :: rs).foldl
      (fun a r => dictInsert a (slug r.city_name) (rowToLocation r)) [] = _
    rw [foldl_dictInsert_nodup _ [] (by simp) hnodup]
    simp

/-- Witness for C8 (amended): a single active row yields its one
slugged entry. -/
theorem C8_location_provider_fallback_witness :
    get_active_locations (.rows [duplicateRow]) =
      [duplicateRow].map fun r => (slug r.city_name, rowToLocation r) :=
  C8_location_provider_fallback.2.2.2 [duplicateRow] (by decide) (by decide)

/-- C7: a sunrise/sunset list whose first element parses as an
ISO-8601 instant (Z read as +00:00) yields the instant's wall-clock
time-of-day as HH:MM:SS; an absent or empty daily list yields null; and
under these inputs the parsing lands in the ok branch (no exception);
the record fields carry exactly these results. -/
theorem C7_sunrise_sunset_parsing :
    (∀ (s : String) (rest : List String) (dt : PyDateTime),
      fromisoformat (replaceZ s) = some dt →
      parseSunTime (some (s :: rest)) = .ok (some (strftimeHMS dt))) ∧
    parseSunTime none = .ok none ∧
    parseSunTime (some []) = .ok none ∧
    parseSunTime (some ["2024-06-01T04:45:00Z"]) = .ok (some "04:45:00") ∧
    (∀ (nl nu : Int) (off : Int → Int) (raw : RawObservation) (rec : WeatherRecord),
      transformOne nl nu off raw = .ok rec →
      parseSunTime raw.daily.sunrise = .ok rec.sunrise ∧
      parseSunTime raw.daily.sunset = .ok rec.sunset) := by
  refine ⟨?_, rfl, rfl, rfl, ?_⟩
  · intro s rest dt h
    simp [parseSunTime, h]
  · intro nl nu off raw rec hok
    rw [transformOne_ok_iff] at hok
    obtain ⟨sr, ss, uv, h1, h2, h3, hrec⟩ := hok
    subst hrec
    exact ⟨h1, h2⟩

/-- Witness for C7: the spec's example instant. -/
theorem C7_sunrise_sunset_parsing_witness :
    fromisoformat (replaceZ "2024-06-01T04:45:00Z") =
      some ⟨2024, 6, 1, 4, 45, 0, some 0⟩ ∧
    parseSunTime (some ["2024-06-01T04:45:00Z"]) =
      .ok (some (strftimeHMS ⟨2024, 6, 1, 4, 45, 0, some 0⟩)) :=
  ⟨by decide, C7_sunrise_sunset_parsing.1 "2024-06-01T04:45:00Z" []
    ⟨2024, 6, 1, 4, 45, 0, some 0⟩ (by decide)⟩

/-- Every fallback condition resolves to the shared pair
`(nowLocal, nowUtc)`. -/
lemma resolveTimestamps_fallback (nl nu : Int) (off : Int → Int)
    (t : Option String) (h : isFallbackTime t = true) :
    resolveTimestamps t nl nu off = ⟨nl, nu⟩ := by
  cases t with
  | none => rfl
  | some s =>
    simp only [isFallbackTime] at h
    simp only [resolveTimestamps]
    by_cases h1 : s = ""
    · rw [if_pos h1]
    · rw [if_neg h1]
      by_cases h2 : pyContains s 'T'
      · rw [if_pos h2]
        have h3 : (fromisoformat (replaceZ s)).isNone = true := by
          cases hi : (fromisoformat (replaceZ s)).isNone with
          | true => rfl
          | false =>
            have hs : (s == "") = false := by simpa using h1
            rw [hi, h2, hs] at h
            simp at h
        cases hfi : fromisoformat (replaceZ s) with
        | none => rfl
        | some dt =>
          rw [hfi] at h3
          simp at h3
      · rw [if_neg h2]

/-- C1: a current-observation timestamp containing the date/time
separator parses to a zone-aware instant whose UTC conversion becomes
timestamp_utc (2024-06-01T12:00:00+02:00 yields the instant
2024-06-01T10:00:00Z); a zone-naive parse is treated as UTC
(2024-06-01T12:00:00 yields 2024-06-01T12:00:00Z); a missing, falsy,
separator-less or unparsable timestamp falls back to the run-wide now
pair captured once at transform entry, so any two fallback records of
one run share identical instants. -/
theorem C1_timestamp_resolution :
    (∀ (nl nu : Int) (off : Int → Int) (ts : String) (dt : PyDateTime) (o : Int),
      pyContains ts 'T' = true →
      fromisoformat (replaceZ ts) = some dt →
      dt.tzOffsetMinutes = some o →
      (resolveTimestamps (some ts) nl nu off).utcTs = utcInstant dt o) ∧
    (∀ (nl nu : Int) (off : Int → Int) (ts : String) (dt : PyDateTime),
      pyContains ts 'T' = true →
      fromisoformat (replaceZ ts) = some dt →
      dt.tzOffsetMinutes = none →
      resolveTimestamps (some ts) nl nu off = ⟨naiveSecs dt, naiveSecs dt⟩) ∧
    (∀ (nl nu : Int) (off : Int → Int) (t : Option String),
      isFallbackTime t = true → resolveTimestamps t nl nu off = ⟨nl, nu⟩) ∧
    (∀ (nl nu : Int) (off : Int → Int),
      (resolveTimestamps (some "2024-06-01T12:00:00+02:00") nl nu off).utcTs =
        naiveEpochSecs 2024 6 1 10 0 0) ∧
    (∀ (nl nu : Int) (off : Int → Int),
      resolveTimestamps (some "2024-06-01T12:00:00") nl nu off =
        ⟨naiveEpochSecs 2024 6 1 12 0 0, naiveEpochSecs 2024 6 1 12 0 0⟩) ∧
    (∀ (nl nu : Int) (off : Int → Int) (raw1 raw2 : RawObservation)
        (rec1 rec2 : WeatherRecord),
      transformOne nl nu off raw1 = .ok rec1 →
      transformOne nl nu off raw2 = .ok rec2 →
      isFallbackTime raw1.current.time = true →
      isFallbackTime raw2.current.time = true →
      rec1.timestamp = rec2.timestamp ∧
        rec1.timestamp_utc = rec2.timestamp_utc ∧
        rec1.timestamp = nl ∧ rec1.timestamp_utc = nu) := by
  have hne_of_T : ∀ ts : String, pyContains ts 'T' = true → ts ≠ "" := by
    intro ts hT h
    subst h
    simp [pyContains] at hT
  refine ⟨?_, ?_, ?_, fun _ _ _ => rfl, fun _ _ _ => rfl, ?_⟩
  · intro nl nu off ts dt o hT hparse hoff
    simp only [resolveTimestamps]
    rw [if_neg (hne_of_T ts hT), if_pos hT, hparse]
    simp only [hoff]
  · intro nl nu off ts dt hT hparse hoff
    simp only [resolveTimestamps]
    rw [if_neg (hne_of_T ts hT), if_pos hT, hparse]
    simp only [hoff]
  · intro nl nu off t h
    exact resolveTimestamps_fallback nl nu off t h
  · intro nl nu off raw1 raw2 rec1 rec2 h1 h2 hf1 hf2
    rw [transformOne_ok_iff] at h1 h2
    obtain ⟨sr1, ss1, uv1, _, _, _, hrec1⟩ := h1
    obtain ⟨sr2, ss2, uv2, _, _, _, hrec2⟩ := h2
    subst hrec1
    subst hrec2
    have e1 := resolveTimestamps_fallback nl nu off raw1.current.time hf1
    have e2 := resolveTimestamps_fallback nl nu off raw2.current.time hf2
    refine ⟨?_, ?_, ?_, ?_⟩ <;> simp [e1, e2]

/-- Witness for C1: a missing timestamp resolves to the shared now
pair. -/
theorem C1_timestamp_resolution_witness :
    isFallbackTime none = true ∧
    resolveTimestamps none 5 7 (fun _ => 0) = ⟨5, 7⟩ :=
  ⟨rfl, C1_timestamp_resolution.2.2.1 5 7 (fun _ => 0) none rfl⟩

end EtlWeather
